import Mathlib

/-!
Verification of the form-checker service (src/index.js, second revision,
lines 168-464, which is the revision all behavioural claims cite).

The embedding models:
- `parseAcceptingFromHtml` (index.js 229-261): the signal extractor.  Its
  input here is the already-normalized body text (the code lowercases and
  flattens whitespace before matching) together with the number of `form`
  elements found by the HTML parser.
- `tryAlternativeFetches` (index.js 285-306): the alternate-source prober,
  abstracted over the list of fetch outcomes for the derived alternate URLs
  (a fetch outcome is `none` on a network error, `some c` on success).
- the `/check` route body (index.js 341-436) as `runCheck`, taking the
  previously persisted `accepting` flag and an environment record holding
  the primary fetch outcome, the alternate fetch outcomes, the `force=1`
  query flag, the FORCE_NOTIFY env flag, and whether the Telegram transport
  succeeds.  The outcome records the HTTP status, the response `ok` and
  `notified` fields, the state written by `saveState` (if any), the number
  of `sendTelegramMessage` calls, and the spec-level kind of the attempted
  notification.
- the Telegram audit-log cap (index.js 316-328) as `appendLog`.
- the shared-secret gates of `/check`, `/debug-fetch` and the ungated
  `/test-telegram` endpoint (index.js 341-347, 439-461).
-/

/-- Substring test on explicit character lists: true when `pat` occurs as a
contiguous run inside `hay`.  Mirrors JavaScript `String.prototype.includes`. -/
def containsSub (pat : List Char) : List Char → Bool
  | [] => pat.isEmpty
  | c :: t => pat.isPrefixOf (c :: t) || containsSub pat t

/-- JavaScript `hay.includes(pat)` on Lean strings. -/
def strContains (hay pat : String) : Bool :=
  containsSub pat.data hay.data

/-- JavaScript `s.startsWith(pre)` on Lean strings. -/
def strStartsWith (s pre : String) : Bool :=
  pre.data.isPrefixOf s.data

/-- One fetched representation of the form: the normalized (lowercased,
whitespace-flattened) body text and the number of `form` elements, the two
inputs `parseAcceptingFromHtml` reads from the parsed HTML. -/
structure Content where
  bodyText : String
  formCount : Nat
deriving DecidableEq, Repr

/-- Result of the heuristic classifier: the `accepting` flag and the reason
string, exactly the `{ accepting, reason }` object of index.js. -/
structure ParseResult where
  accepting : Bool
  reason : String
deriving DecidableEq, Repr

/-- The closed-form phrases of index.js lines 233-239, in source order. -/
def closedPhrases : List String :=
  [ "no longer accepting responses",
    "not accepting responses",
    "responses are no longer being accepted",
    "this form is no longer accepting responses",
    "is no longer accepting form responses" ]

/-- The sign-in/access-block indicators of index.js lines 244-251, in
source order. -/
def signInIndicators : List String :=
  [ "accounts.google.com/signin",
    "sign in to continue",
    "sign in",
    "access denied",
    "you need permission",
    "please sign in" ]

/-- Reason string built at index.js line 241. -/
def mkClosedReason (p : String) : String :=
  "matched-closed: \"" ++ p ++ "\""

/-- Reason string built at index.js line 253. -/
def mkBlockedReason (s : String) : String :=
  "blocked-signin: \"" ++ s ++ "\""

/-- The signal extractor, index.js lines 229-261: first matching closed
phrase wins, else first matching sign-in indicator, else the affirmative
heuristic (the words submit/send/response or a `form` element), else the
fallback. -/
def parseAcceptingFromHtml (bodyText : String) (formCount : Nat) : ParseResult :=
  match closedPhrases.find? (fun p => strContains bodyText p) with
  | some p => ⟨false, mkClosedReason p⟩
  | none =>
    match signInIndicators.find? (fun s => strContains bodyText s) with
    | some s => ⟨false, mkBlockedReason s⟩
    | none =>
      if strContains bodyText "submit" || strContains bodyText "send" ||
          strContains bodyText "response" || decide (0 < formCount) then
        ⟨true, "found-form-controls"⟩
      else
        ⟨false, "fallback-no-indicator"⟩

/-- Spec-level verdicts for a `ParseResult`.  The route code dispatches on
the reason-string prefixes exactly as this mapping does (index.js lines 368
and 403). -/
inductive Verdict where
  | Accepting
  | Closed
  | Blocked
  | Ambiguous
deriving DecidableEq, Repr

/-- Map a parse result to the spec verdict, following the dispatch the
route performs on the reason string. -/
def ParseResult.verdict (r : ParseResult) : Verdict :=
  if strStartsWith r.reason "matched-closed" then Verdict.Closed
  else if strStartsWith r.reason "blocked-signin" then Verdict.Blocked
  else if r.accepting then Verdict.Accepting
  else Verdict.Ambiguous

/-- The alternate-source prober, index.js lines 285-306, abstracted over
the list of per-URL fetch outcomes (`none` = fetch error, skipped).  It
returns the first parse whose `accepting` flag is true, else `none`. -/
def tryAlternativeFetches : List (Option Content) → Option ParseResult
  | [] => none
  | none :: rest => tryAlternativeFetches rest
  | some c :: rest =>
    if (parseAcceptingFromHtml c.bodyText c.formCount).accepting then
      some (parseAcceptingFromHtml c.bodyText c.formCount)
    else
      tryAlternativeFetches rest

/-- Spec-level kind of a notification attempt. -/
inductive NotifKind where
  | Transition
  | DegradedStatus
  | ForcedTest
deriving DecidableEq, Repr

/-- Environment of one `/check` invocation: the primary fetch outcome
(`none` = fetch error), the alternate fetch outcomes, the `force=1` query
flag, the FORCE_NOTIFY env flag, and whether the Telegram transport
delivers successfully. -/
structure CheckEnv where
  primary : Option Content
  alts : List (Option Content)
  forceQuery : Bool
  forceNotifyEnv : Bool
  telegramOk : Bool
deriving DecidableEq, Repr

/-- Observable outcome of one `/check` invocation: HTTP status, the `ok`
and `notified` response fields, the state written by `saveState` (`none`
when no save happened, `some a` when `{accepting: a}` was written), the
number of `sendTelegramMessage` calls, the spec-level kind of the attempted
notification, and the reason string in the response. -/
structure CheckOutcome where
  httpStatus : Nat
  ok : Bool
  notified : Bool
  saved : Option (Option Bool)
  sends : Nat
  kind : Option NotifKind
  reason : String
deriving DecidableEq, Repr

/-- The `changed` computation of index.js line 414:
`(prev.accepting === null) ? false : (accepting && prev.accepting === false)`. -/
def changedFlag (prev : Option Bool) (accepting : Bool) : Bool :=
  match prev with
  | none => false
  | some pa => accepting && pa == false

/-- The `shouldNotify` computation of index.js line 421:
`(changed && accepting) || (forceQuery && FORCE_NOTIFY_ENV)`. -/
def shouldNotifyFlag (prev : Option Bool) (accepting forceQuery forceNotifyEnv : Bool) : Bool :=
  (changedFlag prev accepting && accepting) || (forceQuery && forceNotifyEnv)

/-- Tail of the route after alternate substitution, index.js lines 402-435:
the explicit matched-closed suppression, then the normal flow that saves the
new state before deciding and attempting the notification. -/
def afterParse (prev : Option Bool) (env : CheckEnv) (parsed : ParseResult) : CheckOutcome :=
  if strStartsWith parsed.reason "matched-closed" then
    { httpStatus := 200, ok := true, notified := false, saved := some (some false),
      sends := 0, kind := none, reason := parsed.reason }
  else
    if shouldNotifyFlag prev parsed.accepting env.forceQuery env.forceNotifyEnv then
      if env.telegramOk then
        { httpStatus := 200, ok := true, notified := true, saved := some (some parsed.accepting),
          sends := 1,
          kind := some (if changedFlag prev parsed.accepting && parsed.accepting then
            NotifKind.Transition else NotifKind.ForcedTest),
          reason := parsed.reason }
      else
        { httpStatus := 500, ok := false, notified := false, saved := some (some parsed.accepting),
          sends := 1,
          kind := some (if changedFlag prev parsed.accepting && parsed.accepting then
            NotifKind.Transition else NotifKind.ForcedTest),
          reason := "telegram_send_failed" }
    else
      { httpStatus := 200, ok := true, notified := false, saved := some (some parsed.accepting),
        sends := 0, kind := none, reason := parsed.reason }

/-- The still-blocked branch of index.js lines 375-399: when the previous
flag is false or null, send the degraded status message and only on
delivery success persist `{accepting: true}` (the send at line 384 precedes
the save at line 391, and the failure path returns at line 388 before any
save); when the previous flag is already true, persist `{accepting: true}`
and do not notify. -/
def degradedBranch (prev : Option Bool) (env : CheckEnv) : CheckOutcome :=
  if prev = some false ∨ prev = none then
    if env.telegramOk then
      { httpStatus := 200, ok := true, notified := true, saved := some (some true),
        sends := 1, kind := some NotifKind.DegradedStatus,
        reason := "blocked-signin-status-sent" }
    else
      { httpStatus := 500, ok := false, notified := false, saved := none,
        sends := 1, kind := some NotifKind.DegradedStatus,
        reason := "telegram_send_failed" }
  else
    { httpStatus := 200, ok := true, notified := false, saved := some (some true),
      sends := 0, kind := none, reason := "blocked-signin-no-change" }

/-- Route body once the primary fetch succeeded with content `c`, index.js
lines 360-436: classify, probe alternates when blocked, else fall through
to `afterParse`. -/
def runCheckWithContent (prev : Option Bool) (env : CheckEnv) (c : Content) : CheckOutcome :=
  if strStartsWith (parseAcceptingFromHtml c.bodyText c.formCount).reason "blocked-signin" then
    match tryAlternativeFetches env.alts with
    | some altParsed => afterParse prev env altParsed
    | none => degradedBranch prev env
  else
    afterParse prev env (parseAcceptingFromHtml c.bodyText c.formCount)

/-- Outcome of a failed primary fetch, index.js lines 362-365: HTTP 502,
nothing saved, nothing sent. -/
def fetchFailOutcome : CheckOutcome :=
  { httpStatus := 502, ok := false, notified := false, saved := none,
    sends := 0, kind := none, reason := "failed to fetch primary form url" }

/-- The `/check` route body after the shared-secret gate, index.js lines
349-436. -/
def runCheck (prev : Option Bool) (env : CheckEnv) : CheckOutcome :=
  match env.primary with
  | none => fetchFailOutcome
  | some c => runCheckWithContent prev env c

/-- The classification the check effectively acts on: the primary parse,
replaced by the first accepting alternate parse when the primary parse is
blocked (index.js lines 368-374). -/
def effectiveParse (env : CheckEnv) (c : Content) : ParseResult :=
  if strStartsWith (parseAcceptingFromHtml c.bodyText c.formCount).reason "blocked-signin" then
    match tryAlternativeFetches env.alts with
    | some altParsed => altParsed
    | none => parseAcceptingFromHtml c.bodyText c.formCount
  else
    parseAcceptingFromHtml c.bodyText c.formCount

/-- One audit record of the Telegram log, index.js lines 318 and 327. -/
structure DeliveryLogEntry where
  atTime : Nat
  ok : Bool
  detail : String
deriving DecidableEq, Repr

/-- JavaScript `arr.slice(-n)`: the last `n` elements (all of them when the
list is shorter). -/
def sliceLast {α : Type} (n : Nat) (l : List α) : List α :=
  l.drop (l.length - n)

/-- The audit-log update both delivery paths perform, index.js lines
317-319 and 326-328: push one entry, then keep the last 200. -/
def appendLog (log : List DeliveryLogEntry) (e : DeliveryLogEntry) : List DeliveryLogEntry :=
  sliceLast 200 (log ++ [e])

/-- Outcome abstraction for the two debug endpoints: HTTP status and the
number of outbound Telegram sends attempted. -/
structure EndpointOutcome where
  httpStatus : Nat
  sends : Nat
deriving DecidableEq, Repr

/-- Outcome returned by the `/check` gate on a bad key, index.js line 346. -/
def unauthorizedOutcome : CheckOutcome :=
  { httpStatus := 401, ok := false, notified := false, saved := none,
    sends := 0, kind := none, reason := "unauthorized" }

/-- The `/check` endpoint including its shared-secret gate, index.js lines
343-347: the provided key (query or header, empty string when absent) must
be nonempty and equal to SECRET_KEY. -/
def checkEndpoint (secret providedKey : String) (prev : Option Bool) (env : CheckEnv) : CheckOutcome :=
  if providedKey = "" ∨ providedKey ≠ secret then unauthorizedOutcome
  else runCheck prev env

/-- The `/test-telegram` endpoint, index.js lines 439-446: it reads no key
at all and always attempts one outbound delivery; the key argument is
present only to show it is ignored. -/
def testTelegramEndpoint (_providedKey : String) (deliveryOk : Bool) : EndpointOutcome :=
  ⟨if deliveryOk then 200 else 500, 1⟩

/-- The `/debug-fetch` endpoint, index.js lines 448-461: same secret gate
as `/check`, then a fetch-and-parse that sends nothing. -/
def debugFetchEndpoint (secret providedKey : String) (primary : Option Content) : EndpointOutcome :=
  if providedKey = "" ∨ providedKey ≠ secret then ⟨401, 0⟩
  else
    match primary with
    | some _ => ⟨200, 0⟩
    | none => ⟨500, 0⟩

/-- Content of a sign-in interstitial page used as a concrete test input. -/
def signInContent : Content :=
  ⟨"please sign in to continue", 0⟩

/-- Content of an open form page used as a concrete test input. -/
def openFormContent : Content :=
  ⟨"submit your response", 1⟩

/-- Concrete environment: blocked primary page, no usable alternates,
working transport, no forcing. -/
def envBlockedOk : CheckEnv :=
  ⟨some signInContent, [], false, false, true⟩

/-- Concrete environment: blocked primary page, no usable alternates,
forced query with the FORCE_NOTIFY env flag disabled, working transport. -/
def envBlockedForced : CheckEnv :=
  ⟨some signInContent, [], true, false, true⟩

/-- Concrete environment: blocked primary page, no usable alternates,
failing transport, no forcing. -/
def envBlockedFail : CheckEnv :=
  ⟨some signInContent, [], false, false, false⟩

/-- Concrete environment: open form page, failing transport, no forcing. -/
def envOpenFail : CheckEnv :=
  ⟨some openFormContent, [], false, false, false⟩

/-- Concrete environment: open form page, working transport, no forcing. -/
def envOpenOk : CheckEnv :=
  ⟨some openFormContent, [], false, false, true⟩

/-- Concrete environment: failed primary fetch. -/
def envFetchFail : CheckEnv :=
  ⟨none, [], false, false, true⟩

/-- A copy of a check environment with the `force=1` query flag set to the
given value and every other field unchanged. -/
def setForce (env : CheckEnv) (b : Bool) : CheckEnv :=
  ⟨env.primary, env.alts, b, env.forceNotifyEnv, env.telegramOk⟩

/-- Concrete audit-log entry used as a test input. -/
def logEntryOk : DeliveryLogEntry :=
  ⟨0, true, "delivered"⟩
/-- A list whose membership satisfies a predicate somewhere makes `find?`
return its first satisfying element; in particular some satisfying element
is returned. -/
theorem exists_find?_eq_some {α : Type} (p : α → Bool) (l : List α)
    (h : ∃ x, x ∈ l ∧ p x = true) :
    ∃ y, y ∈ l ∧ p y = true ∧ l.find? p = some y := by
  induction l with
  | nil =>
    obtain ⟨x, hx, _⟩ := h
    cases hx
  | cons a t ih =>
    cases hpa : p a with
    | true =>
      exact ⟨a, List.mem_cons_self a t, hpa, List.find?_cons_of_pos t hpa⟩
    | false =>
      obtain ⟨x, hx, hpx⟩ := h
      cases List.mem_cons.mp hx with
      | inl heq =>
        rw [heq] at hpx
        rw [hpx] at hpa
        cases hpa
      | inr hmem =>
        obtain ⟨y, hym, hpy, hfind⟩ := ih ⟨x, hmem, hpx⟩
        refine ⟨y, List.mem_cons_of_mem a hym, hpy, ?_⟩
        rw [List.find?_cons_of_neg t (by simp [hpa]), hfind]

/-- Every classifier output is either non-accepting or exactly the
affirmative result. -/
theorem parse_cases (b : String) (fc : Nat) :
    (parseAcceptingFromHtml b fc).accepting = false ∨
      parseAcceptingFromHtml b fc = ⟨true, "found-form-controls"⟩ := by
  unfold parseAcceptingFromHtml
  cases closedPhrases.find? (fun p => strContains b p) with
  | some p => exact Or.inl rfl
  | none =>
    cases signInIndicators.find? (fun s => strContains b s) with
    | some s => exact Or.inl rfl
    | none =>
      by_cases hif : (strContains b "submit" || strContains b "send" ||
          strContains b "response" || decide (0 < fc)) = true
      · rw [if_pos hif]
        exact Or.inr rfl
      · rw [if_neg hif]
        exact Or.inl rfl

/-- An accepting classifier output carries the affirmative reason. -/
theorem parse_accepting_reason (b : String) (fc : Nat)
    (h : (parseAcceptingFromHtml b fc).accepting = true) :
    parseAcceptingFromHtml b fc = ⟨true, "found-form-controls"⟩ := by
  cases parse_cases b fc with
  | inl hfa => rw [hfa] at h; cases h
  | inr he => exact he

/-- The prober only ever returns the affirmative classifier output. -/
theorem tryAlt_eq_some (alts : List (Option Content)) (p : ParseResult)
    (h : tryAlternativeFetches alts = some p) :
    p = ⟨true, "found-form-controls"⟩ := by
  induction alts with
  | nil => cases h
  | cons a t ih =>
    cases a with
    | none => exact ih h
    | some c =>
      by_cases hacc : (parseAcceptingFromHtml c.bodyText c.formCount).accepting = true
      · have hr := parse_accepting_reason c.bodyText c.formCount hacc
        unfold tryAlternativeFetches at h
        rw [if_pos hacc] at h
        rw [← Option.some.inj h, hr]
      · unfold tryAlternativeFetches at h
        rw [if_neg hacc] at h
        exact ih h

/-- An accepting effective classification is exactly the affirmative
result. -/
theorem effectiveParse_true (env : CheckEnv) (c : Content)
    (h : (effectiveParse env c).accepting = true) :
    effectiveParse env c = ⟨true, "found-form-controls"⟩ := by
  unfold effectiveParse at h ⊢
  by_cases hb : strStartsWith (parseAcceptingFromHtml c.bodyText c.formCount).reason
      "blocked-signin" = true
  · simp only [if_pos hb] at h ⊢
    cases ht : tryAlternativeFetches env.alts with
    | some altParsed =>
      exact tryAlt_eq_some env.alts altParsed ht
    | none =>
      rw [ht] at h
      exact parse_accepting_reason c.bodyText c.formCount h
  · simp only [if_neg hb] at h ⊢
    exact parse_accepting_reason c.bodyText c.formCount h

/-- When the effective classification is accepting, the check reduces to
the post-classification tail applied to it. -/
theorem runCheck_accepting_eq (prev : Option Bool) (env : CheckEnv) (c : Content)
    (hp : env.primary = some c) (hacc : (effectiveParse env c).accepting = true) :
    runCheck prev env = afterParse prev env (effectiveParse env c) := by
  unfold runCheck
  rw [hp]
  show runCheckWithContent prev env c = _
  unfold runCheckWithContent effectiveParse
  by_cases hb : strStartsWith (parseAcceptingFromHtml c.bodyText c.formCount).reason
      "blocked-signin" = true
  · simp only [if_pos hb]
    cases ht : tryAlternativeFetches env.alts with
    | some altParsed => rfl
    | none =>
      exfalso
      have hep := effectiveParse_true env c hacc
      unfold effectiveParse at hep
      rw [if_pos hb, ht] at hep
      have hep2 : parseAcceptingFromHtml c.bodyText c.formCount =
          ⟨true, "found-form-controls"⟩ := hep
      rw [hep2] at hb
      exact absurd hb (by decide)
  · simp only [if_neg hb]

/-- The affirmative reason does not carry the closed prefix. -/
theorem ffc_not_closed :
    strStartsWith "found-form-controls" "matched-closed" = false := by decide

/-- The affirmative reason does not carry the blocked prefix. -/
theorem ffc_not_blocked :
    strStartsWith "found-form-controls" "blocked-signin" = false := by decide

/-- Claim C2: in the normal (non-closed, non-blocked) flow, when the
previously persisted accepting flag is false and the current effective
classification is accepting, the decision yields shouldNotify = true of
kind Transition and the new state accepting = true is persisted. -/
theorem claim2_false_to_true_notifies (prev : Option Bool) (env : CheckEnv) (c : Content)
    (hp : env.primary = some c) (hacc : (effectiveParse env c).accepting = true)
    (hprev : prev = some false) :
    shouldNotifyFlag prev (effectiveParse env c).accepting env.forceQuery env.forceNotifyEnv = true ∧
    (runCheck prev env).kind = some NotifKind.Transition ∧
    (runCheck prev env).saved = some (some true) := by
  have hre := runCheck_accepting_eq prev env c hp hacc
  have hep := effectiveParse_true env c hacc
  subst hprev
  rw [hre, hep]
  refine ⟨?_, ?_, ?_⟩
  · simp [shouldNotifyFlag, changedFlag]
  · by_cases htel : env.telegramOk = true
    · simp [afterParse, shouldNotifyFlag, changedFlag, htel, ffc_not_closed]
    · simp [afterParse, shouldNotifyFlag, changedFlag, htel, ffc_not_closed]
  · by_cases htel : env.telegramOk = true
    · simp [afterParse, shouldNotifyFlag, changedFlag, htel, ffc_not_closed]
    · simp [afterParse, shouldNotifyFlag, changedFlag, htel, ffc_not_closed]

/-- Claim C2 witness at a concrete input. -/
theorem claim2_witness :
    shouldNotifyFlag (some false) (effectiveParse envOpenOk openFormContent).accepting
        envOpenOk.forceQuery envOpenOk.forceNotifyEnv = true ∧
    (runCheck (some false) envOpenOk).kind = some NotifKind.Transition ∧
    (runCheck (some false) envOpenOk).saved = some (some true) :=
  claim2_false_to_true_notifies (some false) envOpenOk openFormContent rfl (by decide) rfl

/-- Claim C1: when the primary verdict is blocked, no alternate probe
yields an accepting parse, and the previously persisted flag is false or
null, the check sends exactly one DegradedStatus notification and persists
accepting = true; a second identical check with previous now true persists
accepting = true again and sends nothing. -/
theorem claim1_degraded_notify_once (prev : Option Bool) (env : CheckEnv) (c : Content)
    (hp : env.primary = some c)
    (hb : strStartsWith (parseAcceptingFromHtml c.bodyText c.formCount).reason
      "blocked-signin" = true)
    (halt : tryAlternativeFetches env.alts = none)
    (hprev : prev = some false ∨ prev = none)
    (htel : env.telegramOk = true) :
    (runCheck prev env).notified = true ∧
    (runCheck prev env).sends = 1 ∧
    (runCheck prev env).kind = some NotifKind.DegradedStatus ∧
    (runCheck prev env).saved = some (some true) ∧
    (runCheck (some true) env).saved = some (some true) ∧
    (runCheck (some true) env).notified = false ∧
    (runCheck (some true) env).sends = 0 := by
  have hrun : ∀ q : Option Bool, runCheck q env = degradedBranch q env := by
    intro q
    unfold runCheck
    rw [hp]
    show runCheckWithContent q env c = _
    unfold runCheckWithContent
    rw [if_pos hb, halt]
  rw [hrun prev, hrun (some true)]
  unfold degradedBranch
  rw [if_pos hprev, if_pos htel]
  rw [if_neg (by simp : ¬((some true : Option Bool) = some false ∨ (some true : Option Bool) = none))]
  exact ⟨rfl, rfl, rfl, rfl, rfl, rfl, rfl⟩

/-- Claim C1 witness at a concrete input. -/
theorem claim1_witness :
    (runCheck (some false) envBlockedOk).notified = true ∧
    (runCheck (some false) envBlockedOk).sends = 1 ∧
    (runCheck (some false) envBlockedOk).kind = some NotifKind.DegradedStatus ∧
    (runCheck (some false) envBlockedOk).saved = some (some true) ∧
    (runCheck (some true) envBlockedOk).saved = some (some true) ∧
    (runCheck (some true) envBlockedOk).notified = false ∧
    (runCheck (some true) envBlockedOk).sends = 0 :=
  claim1_degraded_notify_once (some false) envBlockedOk signInContent rfl (by decide) rfl
    (Or.inl rfl) rfl

/-- Claim C6: on a first-ever check (previous accepting flag null) the
attempted notification, if any, is never of kind Transition: it is absent,
DegradedStatus, or ForcedTest. -/
theorem claim6_cold_start_never_transition (env : CheckEnv) :
    (runCheck none env).kind = none ∨
    (runCheck none env).kind = some NotifKind.DegradedStatus ∨
    (runCheck none env).kind = some NotifKind.ForcedTest := by
  unfold runCheck
  cases env.primary with
  | none => exact Or.inl rfl
  | some c =>
    show (runCheckWithContent none env c).kind = none ∨
      (runCheckWithContent none env c).kind = some NotifKind.DegradedStatus ∨
      (runCheckWithContent none env c).kind = some NotifKind.ForcedTest
    unfold runCheckWithContent
    have hafter : ∀ p : ParseResult,
        (afterParse none env p).kind = none ∨
        (afterParse none env p).kind = some NotifKind.ForcedTest := by
      intro p
      unfold afterParse
      by_cases hc : strStartsWith p.reason "matched-closed" = true
      · rw [if_pos hc]
        exact Or.inl rfl
      · rw [if_neg hc]
        by_cases hn : shouldNotifyFlag none p.accepting env.forceQuery env.forceNotifyEnv = true
        · rw [if_pos hn]
          by_cases htel : env.telegramOk = true
          · rw [if_pos htel]
            exact Or.inr (by simp [changedFlag])
          · rw [if_neg htel]
            exact Or.inr (by simp [changedFlag])
        · rw [if_neg hn]
          exact Or.inl rfl
    by_cases hb : strStartsWith (parseAcceptingFromHtml c.bodyText c.formCount).reason
        "blocked-signin" = true
    · rw [if_pos hb]
      cases tryAlternativeFetches env.alts with
      | some altParsed =>
        cases hafter altParsed with
        | inl h => exact Or.inl h
        | inr h => exact Or.inr (Or.inr h)
      | none =>
        unfold degradedBranch
        rw [if_pos (Or.inr rfl)]
        by_cases htel : env.telegramOk = true
        · rw [if_pos htel]
          exact Or.inr (Or.inl rfl)
        · rw [if_neg htel]
          exact Or.inr (Or.inl rfl)
    · rw [if_neg hb]
      cases hafter (parseAcceptingFromHtml c.bodyText c.formCount) with
      | inl h => exact Or.inl h
      | inr h => exact Or.inr (Or.inr h)

/-- Claim C8: when the primary fetch fails the check aborts with HTTP 502,
reports failure, mutates no persisted state and sends no notification. -/
theorem claim8_fetch_error_aborts (prev : Option Bool) (env : CheckEnv)
    (hp : env.primary = none) :
    (runCheck prev env).httpStatus = 502 ∧
    (runCheck prev env).ok = false ∧
    (runCheck prev env).saved = none ∧
    (runCheck prev env).sends = 0 := by
  unfold runCheck
  rw [hp]
  exact ⟨rfl, rfl, rfl, rfl⟩

/-- Claim C8 witness at a concrete input. -/
theorem claim8_witness :
    (runCheck (some false) envFetchFail).httpStatus = 502 ∧
    (runCheck (some false) envFetchFail).ok = false ∧
    (runCheck (some false) envFetchFail).saved = none ∧
    (runCheck (some false) envFetchFail).sends = 0 :=
  claim8_fetch_error_aborts (some false) envFetchFail rfl

/-- Claim C4 counterexample: with force=1 and FORCE_NOTIFY disabled, a
blocked page with previous accepting = false makes the check fire a
DegradedStatus notification although the effective classification is not
accepting and no closed-to-open transition occurred, so the statement that
no notification fires unless a genuine transition occurred is false. -/
theorem claim4_counterexample :
    (runCheck (some false) envBlockedForced).notified = true ∧
    (runCheck (some false) envBlockedForced).sends = 1 ∧
    (runCheck (some false) envBlockedForced).kind = some NotifKind.DegradedStatus ∧
    (effectiveParse envBlockedForced signInContent).accepting = false ∧
    changedFlag (some false) (effectiveParse envBlockedForced signInContent).accepting = false ∧
    envBlockedForced.forceQuery = true ∧ envBlockedForced.forceNotifyEnv = false := by
  decide

/-- Claim C4 amended: a check with force=1 while FORCE_NOTIFY is disabled
behaves exactly as the same check without force=1; in particular the forced
flag never adds a notification on its own. -/
theorem claim4_forced_disabled_is_normal (prev : Option Bool) (env : CheckEnv)
    (h : env.forceNotifyEnv = false) :
    runCheck prev (setForce env true) = runCheck prev (setForce env false) := by
  obtain ⟨prim, alts, fq, fe, tok⟩ := env
  simp only at h
  subst h
  cases prim with
  | none => rfl
  | some c =>
    show runCheckWithContent prev (setForce ⟨some c, alts, fq, false, tok⟩ true) c =
      runCheckWithContent prev (setForce ⟨some c, alts, fq, false, tok⟩ false) c
    unfold runCheckWithContent setForce
    by_cases hb : strStartsWith (parseAcceptingFromHtml c.bodyText c.formCount).reason
        "blocked-signin" = true
    · simp only [if_pos hb]
      cases tryAlternativeFetches alts with
      | some altParsed =>
        simp [afterParse, shouldNotifyFlag]
      | none => rfl
    · simp only [if_neg hb]
      simp [afterParse, shouldNotifyFlag]

/-- Claim C4 amended witness at a concrete input. -/
theorem claim4_witness :
    runCheck (some false) (setForce envBlockedOk true) =
      runCheck (some false) (setForce envBlockedOk false) :=
  claim4_forced_disabled_is_normal (some false) envBlockedOk rfl

/-- Claim C5 counterexample: in the degraded blocked-page branch the
Telegram send precedes the save, so when delivery fails the check returns
HTTP 500 with no state saved, and a repeated identical check attempts the
same notification again; the claim that state is always persisted before
the delivery attempt is therefore false. -/
theorem claim5_counterexample :
    (runCheck (some false) envBlockedFail).sends = 1 ∧
    (runCheck (some false) envBlockedFail).httpStatus = 500 ∧
    (runCheck (some false) envBlockedFail).kind = some NotifKind.DegradedStatus ∧
    (runCheck (some false) envBlockedFail).saved = none := by
  decide

/-- Claim C5 amended: for the normal-flow Transition notification the new
state is saved before the delivery attempt, so when delivery fails the
check surfaces HTTP 500 and the state accepting = true is already
persisted; a repeated identical check then computes changed = false and
attempts no notification.  The guarantee does not extend to the degraded
blocked-page notification, where delivery precedes the save. -/
theorem claim5_persist_before_send_normal_flow (prev : Option Bool) (env : CheckEnv) (c : Content)
    (hp : env.primary = some c) (hacc : (effectiveParse env c).accepting = true)
    (hprev : prev = some false) (htel : env.telegramOk = false)
    (hforce : (env.forceQuery && env.forceNotifyEnv) = false) :
    (runCheck prev env).sends = 1 ∧
    (runCheck prev env).httpStatus = 500 ∧
    (runCheck prev env).ok = false ∧
    (runCheck prev env).saved = some (some true) ∧
    changedFlag (some true) (effectiveParse env c).accepting = false ∧
    (runCheck (some true) env).sends = 0 ∧
    (runCheck (some true) env).saved = some (some true) := by
  have hep := effectiveParse_true env c hacc
  have hre1 := runCheck_accepting_eq prev env c hp hacc
  have hre2 := runCheck_accepting_eq (some true) env c hp hacc
  subst hprev
  rw [hre1, hre2, hep]
  refine ⟨?_, ?_, ?_, ?_, ?_, ?_, ?_⟩
  · simp [afterParse, shouldNotifyFlag, changedFlag, htel, ffc_not_closed]
  · simp [afterParse, shouldNotifyFlag, changedFlag, htel, ffc_not_closed]
  · simp [afterParse, shouldNotifyFlag, changedFlag, htel, ffc_not_closed]
  · simp [afterParse, shouldNotifyFlag, changedFlag, htel, ffc_not_closed]
  · simp [changedFlag]
  · simp [afterParse, shouldNotifyFlag, changedFlag, hforce, ffc_not_closed]
  · simp [afterParse, shouldNotifyFlag, changedFlag, hforce, ffc_not_closed]

/-- Claim C5 amended witness at a concrete input. -/
theorem claim5_witness :
    (runCheck (some false) envOpenFail).sends = 1 ∧
    (runCheck (some false) envOpenFail).httpStatus = 500 ∧
    (runCheck (some false) envOpenFail).ok = false ∧
    (runCheck (some false) envOpenFail).saved = some (some true) ∧
    changedFlag (some true) (effectiveParse envOpenFail openFormContent).accepting = false ∧
    (runCheck (some true) envOpenFail).sends = 0 ∧
    (runCheck (some true) envOpenFail).saved = some (some true) :=
  claim5_persist_before_send_normal_flow (some false) envOpenFail openFormContent rfl
    (by decide) rfl rfl rfl

/-- Claim C3: any normalized body text containing one of the fixed closed
phrases classifies as Closed with a matched-closed reason naming a
contained phrase, whatever affirmative signals or form controls co-occur. -/
theorem claim3_closed_phrase_wins (body : String) (fc : Nat)
    (h : ∃ p, p ∈ closedPhrases ∧ strContains body p = true) :
    (parseAcceptingFromHtml body fc).verdict = Verdict.Closed ∧
    (parseAcceptingFromHtml body fc).accepting = false ∧
    ∃ p, p ∈ closedPhrases ∧ strContains body p = true ∧
      (parseAcceptingFromHtml body fc).reason = mkClosedReason p := by
  obtain ⟨y, hym, hpy, hfind⟩ :=
    exists_find?_eq_some (fun p => strContains body p) closedPhrases h
  have hparse : parseAcceptingFromHtml body fc = ⟨false, mkClosedReason y⟩ := by
    unfold parseAcceptingFromHtml
    rw [hfind]
  rw [hparse]
  refine ⟨?_, rfl, y, hym, hpy, rfl⟩
  simp only [closedPhrases, List.mem_cons, List.not_mem_nil, or_false] at hym
  rcases hym with rfl | rfl | rfl | rfl | rfl <;> decide

/-- Claim C3 witness at a concrete input that also contains the affirmative
signals and a form control. -/
theorem claim3_witness :
    (parseAcceptingFromHtml "submit send response this form is no longer accepting responses" 1).verdict
        = Verdict.Closed ∧
    (parseAcceptingFromHtml "submit send response this form is no longer accepting responses" 1).accepting
        = false ∧
    ∃ p, p ∈ closedPhrases ∧
      strContains "submit send response this form is no longer accepting responses" p = true ∧
      (parseAcceptingFromHtml "submit send response this form is no longer accepting responses" 1).reason
        = mkClosedReason p :=
  claim3_closed_phrase_wins "submit send response this form is no longer accepting responses" 1
    ⟨"no longer accepting responses", by decide, by decide⟩

/-- Claim C7: any normalized body text containing a sign-in indicator and
none of the fixed closed phrases classifies as Blocked with a
blocked-signin reason naming a contained indicator. -/
theorem claim7_signin_blocked (body : String) (fc : Nat)
    (hs : ∃ s, s ∈ signInIndicators ∧ strContains body s = true)
    (hc : ∀ p, p ∈ closedPhrases → strContains body p = false) :
    (parseAcceptingFromHtml body fc).verdict = Verdict.Blocked ∧
    (parseAcceptingFromHtml body fc).accepting = false ∧
    ∃ s, s ∈ signInIndicators ∧ strContains body s = true ∧
      (parseAcceptingFromHtml body fc).reason = mkBlockedReason s := by
  have hnone : closedPhrases.find? (fun p => strContains body p) = none := by
    rw [List.find?_eq_none]
    intro x hx
    simp [hc x hx]
  obtain ⟨y, hym, hpy, hfind⟩ :=
    exists_find?_eq_some (fun s => strContains body s) signInIndicators hs
  have hparse : parseAcceptingFromHtml body fc = ⟨false, mkBlockedReason y⟩ := by
    unfold parseAcceptingFromHtml
    rw [hnone, hfind]
  rw [hparse]
  refine ⟨?_, rfl, y, hym, hpy, rfl⟩
  simp only [signInIndicators, List.mem_cons, List.not_mem_nil, or_false] at hym
  rcases hym with rfl | rfl | rfl | rfl | rfl | rfl <;> decide

/-- Claim C7 witness at a concrete input. -/
theorem claim7_witness :
    (parseAcceptingFromHtml "please sign in to continue" 0).verdict = Verdict.Blocked ∧
    (parseAcceptingFromHtml "please sign in to continue" 0).accepting = false ∧
    ∃ s, s ∈ signInIndicators ∧ strContains "please sign in to continue" s = true ∧
      (parseAcceptingFromHtml "please sign in to continue" 0).reason = mkBlockedReason s :=
  claim7_signin_blocked "please sign in to continue" 0
    ⟨"sign in to continue", by decide, by decide⟩ (by decide)

/-- Claim C9: each delivery attempt appends exactly one entry to the audit
log and then caps it to the most recent 200: the result never exceeds 200
entries, it is a suffix of the log with the new entry appended (so only the
oldest entries are evicted), the appended entry is always the last one, and
below the cap nothing is evicted at all. -/
theorem claim9_log_capped (log : List DeliveryLogEntry) (e : DeliveryLogEntry) :
    (appendLog log e).length ≤ 200 ∧
    List.IsSuffix (appendLog log e) (log ++ [e]) ∧
    (appendLog log e).getLast? = some e ∧
    (log.length < 200 → appendLog log e = log ++ [e]) := by
  refine ⟨?_, ?_, ?_, ?_⟩
  · unfold appendLog sliceLast
    rw [List.length_drop]
    omega
  · exact List.drop_suffix _ _
  · unfold appendLog sliceLast
    have hle : (log ++ [e]).length - 200 ≤ log.length := by
      rw [List.length_append, List.length_singleton]
      omega
    rw [List.drop_append_of_le_length hle]
    exact List.getLast?_concat _
  · intro hlt
    unfold appendLog sliceLast
    have : (log ++ [e]).length - 200 = 0 := by
      rw [List.length_append, List.length_singleton]
      omega
    rw [this, List.drop_zero]

/-- Claim C9 witness at a concrete input. -/
theorem claim9_witness :
    (appendLog [] logEntryOk).length ≤ 200 ∧
    List.IsSuffix (appendLog [] logEntryOk) ([] ++ [logEntryOk]) ∧
    (appendLog [] logEntryOk).getLast? = some logEntryOk ∧
    (List.length ([] : List DeliveryLogEntry) < 200 → appendLog [] logEntryOk = [] ++ [logEntryOk]) :=
  claim9_log_capped [] logEntryOk

/-- Claim C10: the test-telegram endpoint performs no shared-secret check
and always attempts one outbound delivery whatever key is supplied, while
the check and debug-fetch endpoints answer 401 and do nothing when the
supplied key differs from the configured secret, and the check endpoint
only proceeds on a nonempty key equal to the secret. -/
theorem claim10_test_telegram_ungated (key secret : String) (dOk : Bool)
    (prev : Option Bool) (env : CheckEnv) (primary : Option Content) :
    (testTelegramEndpoint key dOk).sends = 1 ∧
    (key ≠ secret →
      checkEndpoint secret key prev env = unauthorizedOutcome ∧
      debugFetchEndpoint secret key primary = ⟨401, 0⟩) ∧
    (key = secret → key ≠ "" → checkEndpoint secret key prev env = runCheck prev env) := by
  refine ⟨rfl, ?_, ?_⟩
  · intro hne
    constructor
    · unfold checkEndpoint
      rw [if_pos (Or.inr hne)]
    · unfold debugFetchEndpoint
      rw [if_pos (Or.inr hne)]
  · intro heq hne
    unfold checkEndpoint
    rw [if_neg]
    push_neg
    exact ⟨hne, heq⟩

/-- Claim C10 witness at a concrete input. -/
theorem claim10_witness :
    (testTelegramEndpoint "anything" true).sends = 1 ∧
    (("wrong" : String) ≠ "secret" →
      checkEndpoint "secret" "wrong" (some false) envOpenOk = unauthorizedOutcome ∧
      debugFetchEndpoint "secret" "wrong" (some openFormContent) = ⟨401, 0⟩) ∧
    (("wrong" : String) = "secret" → ("wrong" : String) ≠ "" →
      checkEndpoint "secret" "wrong" (some false) envOpenOk = runCheck (some false) envOpenOk) :=
  claim10_test_telegram_ungated "wrong" "secret" true (some false) envOpenOk (some openFormContent)
